import Mathlib

/-!
Shallow embedding of the browse-filter-navigate engine of the lookbook
frontend (src/frontend/src/pages/PersonDetailPage.jsx), together with
theorems settling the specification claims about it.

Conventions of the embedding:
* JS strings are `String`; a field that may be `undefined`/`null` is an
  `Option`; `obj.field?.method(...)` becomes a `match` returning `false`
  (the JS optional chain yields `undefined`, which is falsy) on `none`.
* JS arrays are `List`s; `Array.prototype.some`/`includes`/`filter`/
  `findIndex` become `List.any`/`List.contains`/`List.filter` and a
  recursive `jsFindIndex` returning `-1 : Int` when no element matches.
* JS numbers that the code uses as integers (page indices, array indices,
  lengths, totals) are `Int` when they can be negative (`currentIndex`,
  `gridPage`, `Math.ceil(total/8) - 1`) and `Nat` when they cannot
  (lengths, server totals).
-/

/-- `needle` occurs as a contiguous substring of `hay`
(JS `String.prototype.includes`). -/
def strIncludes (hay needle : String) : Bool :=
  decide (needle.data <:+: hay.data)

/-- `field?.toLowerCase().includes(searchLower)` for an optional string
field: `none` (undefined field) is falsy. -/
def optLowerIncludes (field : Option String) (searchLower : String) : Bool :=
  match field with
  | some v => strIncludes v.toLower searchLower
  | none => false

/-- `String.prototype.trim`: strip leading and trailing whitespace
(defined over the character list so that it evaluates by `decide`). -/
def jsTrim (s : String) : String :=
  ⟨((s.data.dropWhile Char.isWhitespace).reverse.dropWhile
      Char.isWhitespace).reverse⟩

/-- `field?.includes(x)` for an optional string-array field:
`none` is falsy. -/
def optContains (field : Option (List String)) (x : String) : Bool :=
  match field with
  | some l => l.contains x
  | none => false

/-- A project record, with the fields the filtering logic reads.
Optional fields model possibly-missing JSON attributes. -/
structure Project where
  slug : String
  title : Option String
  summary : Option String
  short_description : Option String
  skills : Option (List String)
  sectors : Option (List String)
  deriving Repr, DecidableEq

/-- A person profile record, with the fields the filtering and
navigation logic reads.  `projects` is the embedded
"select projects" list shown on the detail page. -/
structure Profile where
  slug : String
  name : Option String
  bio : Option String
  skills : Option (List String)
  industry_expertise : Option (List String)
  open_to_work : Bool
  projects : Option (List Project)
  deriving Repr, DecidableEq

/-- The people filter state
(`peopleFilters` plus the debounced search value: `search` here stands
for `debouncedPeopleSearch`, the value the filter predicates read). -/
structure PeopleFilters where
  search : String
  skills : List String
  industries : List String
  openToWork : Bool
  deriving Repr, DecidableEq

/-- The project filter state
(`projectFilters` plus the debounced search value: `search` here stands
for `debouncedProjectSearch`). -/
structure ProjectFilters where
  search : String
  skills : List String
  sectors : List String
  deriving Repr, DecidableEq

/-- Search clause of `filteredProfiles`: skipped when the (debounced)
search text is empty (JS falsy), otherwise the record passes when name,
bio or any skill contains the lower-cased search text. -/
def searchPassProfile (f : PeopleFilters) (profile : Profile) : Bool :=
  if f.search != "" then
    let searchLower := f.search.toLower
    optLowerIncludes profile.name searchLower ||
    optLowerIncludes profile.bio searchLower ||
    (match profile.skills with
     | some l => l.any fun sk => strIncludes sk.toLower searchLower
     | none => false)
  else true

/-- Skills clause of `filteredProfiles`: an empty facet passes;
otherwise some selected skill must be in the record's skill list. -/
def skillsPassProfile (f : PeopleFilters) (profile : Profile) : Bool :=
  if f.skills.length > 0 then
    f.skills.any fun filterSkill => optContains profile.skills filterSkill
  else true

/-- Industries clause of `filteredProfiles`. -/
def industriesPassProfile (f : PeopleFilters) (profile : Profile) : Bool :=
  if f.industries.length > 0 then
    f.industries.any fun filterIndustry =>
      optContains profile.industry_expertise filterIndustry
  else true

/-- Open-to-work clause of `filteredProfiles`:
`if (peopleFilters.openToWork && !profile.open_to_work) return false`. -/
def openToWorkPassProfile (f : PeopleFilters) (profile : Profile) : Bool :=
  !(f.openToWork && !profile.open_to_work)

/-- The body of the `filteredProfiles` predicate: the early-return chain
of the JS filter callback, as the conjunction of its clauses. -/
def profileIncluded (f : PeopleFilters) (profile : Profile) : Bool :=
  searchPassProfile f profile &&
  skillsPassProfile f profile &&
  industriesPassProfile f profile &&
  openToWorkPassProfile f profile

/-- `filteredProfiles = allProfiles.filter(...)`. -/
def filteredProfiles (f : PeopleFilters) (allProfiles : List Profile) :
    List Profile :=
  allProfiles.filter (profileIncluded f)

/-- Search clause of `filteredProjects`: title, summary,
short description or any skill must contain the lower-cased search. -/
def searchPassProject (f : ProjectFilters) (project : Project) : Bool :=
  if f.search != "" then
    let searchLower := f.search.toLower
    optLowerIncludes project.title searchLower ||
    optLowerIncludes project.summary searchLower ||
    optLowerIncludes project.short_description searchLower ||
    (match project.skills with
     | some l => l.any fun sk => strIncludes sk.toLower searchLower
     | none => false)
  else true

/-- Skills clause of `filteredProjects`. -/
def skillsPassProject (f : ProjectFilters) (project : Project) : Bool :=
  if f.skills.length > 0 then
    f.skills.any fun filterSkill => optContains project.skills filterSkill
  else true

/-- Sectors clause of `filteredProjects`. -/
def sectorsPassProject (f : ProjectFilters) (project : Project) : Bool :=
  if f.sectors.length > 0 then
    f.sectors.any fun filterSector => optContains project.sectors filterSector
  else true

/-- The body of the `filteredProjects` predicate. -/
def projectIncluded (f : ProjectFilters) (project : Project) : Bool :=
  searchPassProject f project &&
  skillsPassProject f project &&
  sectorsPassProject f project

/-- `filteredProjects = allProjects.filter(...)`. -/
def filteredProjects (f : ProjectFilters) (allProjects : List Project) :
    List Project :=
  allProjects.filter (projectIncluded f)

/-- Search clause of the inner filter of `filteredPersonProjects`
(same fields as `searchPassProject`, with explicit array/string guards
that are identities in this typed model). -/
def detailSearchPass (searchLower : String) (project : Project) : Bool :=
  optLowerIncludes project.title searchLower ||
  optLowerIncludes project.summary searchLower ||
  optLowerIncludes project.short_description searchLower ||
  (match project.skills with
   | some l => l.any fun sk => strIncludes sk.toLower searchLower
   | none => false)

/-- Skills clause of the inner filter of `filteredPersonProjects`:
a missing or empty skills array fails outright, otherwise some selected
skill must be present. -/
def detailSkillsPass (selected : List String) (project : Project) : Bool :=
  match project.skills with
  | some l =>
    if l.length = 0 then false
    else selected.any fun filterSkill => l.contains filterSkill
  | none => false

/-- Sectors clause of the inner filter of `filteredPersonProjects`. -/
def detailSectorsPass (selected : List String) (project : Project) : Bool :=
  match project.sectors with
  | some l =>
    if l.length = 0 then false
    else selected.any fun filterSector => l.contains filterSector
  | none => false

/-- `filteredPersonProjects`: the derived cross-filter applied to the
projects embedded in the displayed person.  `none` models
`!person?.projects` (no person, or no projects field), which returns
`[]`.  When no constraint is active the embedded list is returned
as-is; otherwise the inner filter is applied. -/
def filteredPersonProjects (f : ProjectFilters)
    (personProjects : Option (List Project)) : List Project :=
  match personProjects with
  | none => []
  | some projectsArray =>
    let hasSearch := f.search != "" && (jsTrim f.search).length > 0
    let hasSkillsFilter := f.skills.length > 0
    let hasSectorsFilter := f.sectors.length > 0
    if !hasSearch && !hasSkillsFilter && !hasSectorsFilter then
      projectsArray
    else
      projectsArray.filter fun project =>
        (!hasSearch || detailSearchPass f.search.toLower project) &&
        (!hasSkillsFilter || detailSkillsPass f.skills project) &&
        (!hasSectorsFilter || detailSectorsPass f.sectors project)

/-- `list.findIndex(pred)` of JS: index of the first matching element,
`-1` when none matches. -/
def jsFindIndex (p : α → Bool) : List α → Int
  | [] => -1
  | x :: xs =>
    if p x then 0
    else
      let r := jsFindIndex p xs
      if r = -1 then -1 else r + 1

/-- `list[i]` of JS for an integer index: `none` models `undefined`
(negative or out-of-range index). -/
def jsIndex (l : List α) (i : Int) : Option α :=
  if 0 ≤ i then l.get? i.toNat else none

/-- `Math.ceil(n / size)` for a non-negative integer `n` and a positive
integer `size`, as an `Int` so that subtracting 1 can go negative the
way the JS expressions do. -/
def jsCeilDiv (n size : Nat) : Int :=
  ((n + size - 1) / size : Nat)

/-- `viewMode` / tab values. -/
inductive ViewMode where
  | people
  | projects
  deriving Repr, DecidableEq

/-- `layoutView` values. -/
inductive LayoutView where
  | grid
  | list
  | detail
  deriving Repr, DecidableEq

/-- The component state the browse-filter-navigate logic reads and
writes (the relevant `useState` cells of `PersonDetailPage`). -/
structure ComponentState where
  person : Option Profile
  project : Option Project
  loading : Bool
  error : Option String
  allProfiles : List Profile
  allProjects : List Project
  currentIndex : Int
  viewMode : ViewMode
  layoutView : LayoutView
  gridPage : Int
  totalProfiles : Nat
  totalProjects : Nat
  peopleFilters : PeopleFilters
  projectFilters : ProjectFilters
  filterView : ViewMode
  mobileMenuOpen : Bool
  deriving Repr, DecidableEq

/-- The observable outcome of a keyboard or navigation handler:
a page change, a client-side route navigation, a JS `TypeError`
(reading `.slug` of `undefined`), or nothing. -/
inductive KeyEffect where
  | noop
  | setPage (p : Int)
  | navigateTo (path : String)
  | jsError
  deriving Repr, DecidableEq

/-- Keyboard keys the handler distinguishes. -/
inductive Key where
  | arrowLeft
  | arrowRight
  | other
  deriving Repr, DecidableEq

/-- `currentLength`: length of the unfiltered collection of the active
entity mode. -/
def currentLength (s : ComponentState) : Nat :=
  match s.viewMode with
  | .people => s.allProfiles.length
  | .projects => s.allProjects.length

/-- `canGoPrevious = currentIndex > 0`. -/
def canGoPrevious (s : ComponentState) : Bool :=
  decide (0 < s.currentIndex)

/-- `canGoNext = currentIndex >= 0 && currentIndex < currentLength - 1`. -/
def canGoNext (s : ComponentState) : Bool :=
  decide (0 ≤ s.currentIndex) &&
  decide (s.currentIndex < (currentLength s : Int) - 1)

/-- `handlePrevious`: when `currentIndex > 0`, navigate to the slug of
the item before the current index in the unfiltered collection of the
active entity mode. -/
def handlePreviousEffect (s : ComponentState) : KeyEffect :=
  if 0 < s.currentIndex then
    match s.viewMode with
    | .people =>
      match jsIndex s.allProfiles (s.currentIndex - 1) with
      | some prevProfile => .navigateTo ("/people/" ++ prevProfile.slug)
      | none => .jsError
    | .projects =>
      match jsIndex s.allProjects (s.currentIndex - 1) with
      | some prevProject => .navigateTo ("/projects/" ++ prevProject.slug)
      | none => .jsError
  else .noop

/-- `handleNext`: when `currentIndex < maxLength - 1`, navigate to the
slug of the item after the current index. -/
def handleNextEffect (s : ComponentState) : KeyEffect :=
  let maxLength := currentLength s
  if s.currentIndex < (maxLength : Int) - 1 then
    match s.viewMode with
    | .people =>
      match jsIndex s.allProfiles (s.currentIndex + 1) with
      | some nextProfile => .navigateTo ("/people/" ++ nextProfile.slug)
      | none => .jsError
    | .projects =>
      match jsIndex s.allProjects (s.currentIndex + 1) with
      | some nextProject => .navigateTo ("/projects/" ++ nextProject.slug)
      | none => .jsError
  else .noop

/-- The `maxPage` computed by the ArrowRight branch of `handleKeyDown`:
`Math.ceil(filtered.length / 8) - 1` over the client-side filtered
collection of the active entity mode. -/
def kbGridMaxPage (s : ComponentState) : Int :=
  match s.viewMode with
  | .people => jsCeilDiv (filteredProfiles s.peopleFilters s.allProfiles).length 8 - 1
  | .projects => jsCeilDiv (filteredProjects s.projectFilters s.allProjects).length 8 - 1

/-- `handleKeyDown`: in `grid` layout the arrow keys page
(`gridPage - 1` when `gridPage > 0`, `gridPage + 1` when below
`kbGridMaxPage`); in every other layout (`list` and `detail`) they call
`handlePrevious` / `handleNext`. -/
def handleKeyDown (key : Key) (s : ComponentState) : KeyEffect :=
  match key with
  | .arrowLeft =>
    if s.layoutView = .grid then
      if 0 < s.gridPage then .setPage (s.gridPage - 1) else .noop
    else
      handlePreviousEffect s
  | .arrowRight =>
    if s.layoutView = .grid then
      if s.gridPage < kbGridMaxPage s then .setPage (s.gridPage + 1)
      else .noop
    else
      handleNextEffect s
  | .other => .noop

/-- `handleTabSwitch(tab)`: switch entity mode, reset `currentIndex`
to `-1` and `gridPage` to `0`, close the mobile menu, and navigate to
the base route of the tab.  The filter states are not touched. -/
def handleTabSwitch (tab : ViewMode) (s : ComponentState) :
    ComponentState × String :=
  ({ s with
      filterView := tab
      viewMode := tab
      currentIndex := -1
      gridPage := 0
      mobileMenuOpen := false },
   match tab with
   | .people => "/people"
   | .projects => "/projects")

/-- The next-page button of the grid header: it exists only when
`Math.ceil(total / 8) > 1`, is disabled at
`gridPage >= Math.ceil(total / 8) - 1`, and otherwise sets
`Math.min(Math.ceil(total / 8) - 1, gridPage + 1)`.  (The people and
projects blocks are identical up to which total they read.) -/
def gridNextPageClick (total : Nat) (gridPage : Int) : Int :=
  if 1 < jsCeilDiv total 8 then
    if jsCeilDiv total 8 - 1 ≤ gridPage then gridPage
    else min (jsCeilDiv total 8 - 1) (gridPage + 1)
  else gridPage

/-- The previous-page button of the grid header: exists only when
`Math.ceil(total / 8) > 1`, disabled at `gridPage === 0`, otherwise
sets `Math.max(0, gridPage - 1)`. -/
def gridPrevPageClick (total : Nat) (gridPage : Int) : Int :=
  if 1 < jsCeilDiv total 8 then
    if gridPage = 0 then gridPage
    else max 0 (gridPage - 1)
  else gridPage

/-- The maximum navigable page index of the grid pagination controller:
`ceil(total / 8) - 1`, floored at 0. -/
def maxNavigablePage (total : Nat) : Int :=
  max 0 (jsCeilDiv total 8 - 1)

/-- The ArrowRight paging step in isolation:
`if (gridPage < Math.ceil(len / 8) - 1) gridPage + 1`. -/
def kbArrowRightGridStep (len : Nat) (gridPage : Int) : Int :=
  if gridPage < jsCeilDiv len 8 - 1 then gridPage + 1 else gridPage

/-- The route-driven entry into detail layout (the slug effect before
the fetch resolves): `setLayoutView('detail'); setLoading(true)`. -/
def routeDetailEnter (s : ComponentState) : ComponentState :=
  { s with layoutView := .detail, loading := true }

/-- Completion handler of `fetchPersonAndList` for slug `slug`.
`personResp` is the `getBySlug` result (`none` models both
`success: false` and a thrown fetch error, which land in the same
`setError('Person not found')` state), `allResp` the full-list result. -/
def fetchPersonAndListComplete (slug : String) (personResp : Option Profile)
    (allResp : Option (List Profile)) (s : ComponentState) : ComponentState :=
  match personResp with
  | some personData =>
    let s1 := { s with person := some personData, project := none }
    let s2 := match allResp with
      | some allData =>
        { s1 with allProfiles := allData, totalProfiles := allData.length }
      | none => s1
    let profiles := match allResp with
      | some allData => allData
      | none => s.allProfiles
    let index := jsFindIndex (fun p => p.slug == slug) profiles
    { s2 with
        currentIndex := if 0 ≤ index then index else -1
        error := none
        loading := false }
  | none =>
    { s with error := some "Person not found", loading := false }

/-- Completion handler of `fetchProjectAndList` for slug `slug`
(mirror of `fetchPersonAndListComplete` on the projects side). -/
def fetchProjectAndListComplete (slug : String) (projectResp : Option Project)
    (allResp : Option (List Project)) (s : ComponentState) : ComponentState :=
  match projectResp with
  | some projectData =>
    let s1 := { s with project := some projectData, person := none }
    let s2 := match allResp with
      | some allData =>
        { s1 with allProjects := allData, totalProjects := allData.length }
      | none => s1
    let projects := match allResp with
      | some allData => allData
      | none => s.allProjects
    let index := jsFindIndex (fun p => p.slug == slug) projects
    { s2 with
        currentIndex := if 0 ≤ index then index else -1
        error := none
        loading := false }
  | none =>
    { s with error := some "Project not found", loading := false }

/-- The collection-refresh effect on `currentIndex`: when in detail
layout with a slug, the displayed entity's slug is looked up in the
freshly loaded full collection; `currentIndex` is set only when the
lookup succeeds (`index >= 0`), otherwise it is left alone. -/
def updateCurrentIndexEffect (slugPresent : Bool) (s : ComponentState) :
    ComponentState :=
  if s.layoutView = .detail ∧ slugPresent = true then
    match s.viewMode with
    | .people =>
      match s.person with
      | some person =>
        if 0 < s.allProfiles.length then
          let index := jsFindIndex (fun p => p.slug == person.slug) s.allProfiles
          if 0 ≤ index then { s with currentIndex := index } else s
        else s
      | none => s
    | .projects =>
      match s.project with
      | some project =>
        if 0 < s.allProjects.length then
          let index := jsFindIndex (fun p => p.slug == project.slug) s.allProjects
          if 0 ≤ index then { s with currentIndex := index } else s
        else s
      | none => s
  else s

/-- What the component renders, selected by the early-return chain at
the top of the JSX (`viewMode` is always a non-empty string in the
code, so its truthiness check is dropped). -/
inductive RenderOutcome where
  | loadingScreen
  | errorScreen (msg : String)
  | notFoundScreen
  | content
  deriving Repr, DecidableEq

/-- The render selection:
loading screen while `loading`; the error message when `error` is set
and a slug is present; the bare "Not found" fallback when a slug is
present in detail layout with neither entity loaded; the normal
browse/detail content otherwise. -/
def renderOutcome (slugPresent : Bool) (s : ComponentState) : RenderOutcome :=
  if s.loading then .loadingScreen
  else if s.error.isSome && slugPresent then
    .errorScreen (s.error.getD "")
  else if s.person.isNone && s.project.isNone && slugPresent &&
      decide (s.layoutView = .detail) then
    .notFoundScreen
  else .content

/-- Sample profile (spec search scenario). -/
def profAda : Profile :=
  { slug := "ada-lovelace", name := some "Ada Lovelace",
    bio := some "Mathematician", skills := some ["Math"],
    industry_expertise := some ["Science"], open_to_work := true,
    projects := none }

/-- Sample profile (spec search scenario). -/
def profBo : Profile :=
  { slug := "bo-diaz", name := some "Bo Diaz", bio := none,
    skills := some ["Rust"], industry_expertise := none,
    open_to_work := false, projects := none }

/-- Sample profile with no skills field. -/
def profCam : Profile :=
  { slug := "cam-lee", name := some "Cam Lee", bio := none, skills := none,
    industry_expertise := none, open_to_work := false, projects := none }

/-- Sample profile. -/
def profDee : Profile :=
  { slug := "dee-park", name := some "Dee Park", bio := none,
    skills := some ["Go"], industry_expertise := none,
    open_to_work := false, projects := none }

/-- Sample profile whose slug is "x" (spec stale-index scenario). -/
def profX : Profile :=
  { slug := "x", name := some "X", bio := none, skills := none,
    industry_expertise := none, open_to_work := false, projects := none }

/-- Sample profile with the "Go" skill. -/
def profGoDev : Profile :=
  { slug := "go-dev", name := some "Go Dev", bio := none,
    skills := some ["Go"], industry_expertise := none,
    open_to_work := false, projects := none }

/-- Sample projects (spec facet-intersection scenario). -/
def projGo : Project :=
  { slug := "proj-go", title := some "Go Service", summary := none,
    short_description := none, skills := some ["Go"], sectors := none }

/-- Sample project. -/
def projRustGo : Project :=
  { slug := "proj-rust-go", title := some "Rust Go Tool", summary := none,
    short_description := none, skills := some ["Rust", "Go"], sectors := none }

/-- Sample project. -/
def projPython : Project :=
  { slug := "proj-python", title := some "Python App", summary := none,
    short_description := none, skills := some ["Python"], sectors := none }

/-- Five embedded projects (spec derived-filter-default scenario). -/
def fiveProjects : List Project :=
  [projGo, projRustGo, projPython,
   { slug := "proj-4", title := some "Fourth", summary := none,
     short_description := none, skills := none, sectors := none },
   { slug := "proj-5", title := some "Fifth", summary := none,
     short_description := none, skills := none, sectors := some ["Health"] }]

/-- All-default people filter state (the `useState` initial value). -/
def emptyPeopleFilters : PeopleFilters :=
  { search := "", skills := [], industries := [], openToWork := false }

/-- All-default project filter state (the `useState` initial value). -/
def emptyProjectFilters : ProjectFilters :=
  { search := "", skills := [], sectors := [] }

/-- A people filter state with one selected skill. -/
def goOnlyPeopleFilters : PeopleFilters :=
  { search := "", skills := ["Go"], industries := [], openToWork := false }

/-- The component state right after mount, before any fetch. -/
def baseState : ComponentState :=
  { person := none, project := none, loading := false, error := none,
    allProfiles := [], allProjects := [], currentIndex := -1,
    viewMode := .people, layoutView := .grid, gridPage := 0,
    totalProfiles := 0, totalProjects := 0,
    peopleFilters := emptyPeopleFilters,
    projectFilters := emptyProjectFilters,
    filterView := .people, mobileMenuOpen := false }

/-- Detail view on person "x" at index 2 whose slug is absent from the
freshly refreshed 4-element collection (spec stale-index scenario). -/
def staleIndexState : ComponentState :=
  { baseState with
      layoutView := .detail, viewMode := .people,
      person := some profX,
      allProfiles := [profAda, profBo, profCam, profDee],
      currentIndex := 2 }

/-- Detail view with a stale `currentIndex = 2` retained while the
collection shrank to a single element. -/
def shrunkCollectionState : ComponentState :=
  { baseState with
      layoutView := .detail, viewMode := .people,
      person := some profX,
      allProfiles := [profAda],
      currentIndex := 2 }

/-- List layout, people mode, page 1, current index 1 over a
three-element collection. -/
def listLayoutState : ComponentState :=
  { baseState with
      layoutView := .list, viewMode := .people,
      allProfiles := [profAda, profBo, profCam],
      currentIndex := 1, gridPage := 1 }

theorem jsFindIndex_of_forall_false {α : Type} (p : α → Bool) (l : List α)
    (h : ∀ x ∈ l, p x = false) : jsFindIndex p l = -1 := by
  induction l with
  | nil => rfl
  | cons x xs ih =>
    have hx : p x = false := h x (List.mem_cons_self x xs)
    have hxs : jsFindIndex p xs = -1 :=
      ih fun y hy => h y (List.mem_cons_of_mem x hy)
    simp [jsFindIndex, hx, hxs]

theorem jsFindIndex_first {α : Type} (p : α → Bool) (l : List α) (k : Nat)
    (hk : k < l.length) (hpk : p (l.get ⟨k, hk⟩) = true)
    (hmin : ∀ (j : Nat) (hj : j < k), p (l.get ⟨j, Nat.lt_trans hj hk⟩) = false) :
    jsFindIndex p l = k := by
  induction l generalizing k with
  | nil => exact absurd hk (Nat.not_lt_zero k)
  | cons x xs ih =>
    cases k with
    | zero =>
      simp only [List.get] at hpk
      simp [jsFindIndex, hpk]
    | succ k =>
      have hx : p x = false := hmin 0 (Nat.succ_pos k)
      have hk' : k < xs.length := Nat.lt_of_succ_lt_succ hk
      have hpk' : p (xs.get ⟨k, hk'⟩) = true := hpk
      have hmin' : ∀ (j : Nat) (hj : j < k),
          p (xs.get ⟨j, Nat.lt_trans hj hk'⟩) = false := fun j hj =>
        hmin (j + 1) (Nat.succ_lt_succ hj)
      have hxs : jsFindIndex p xs = k := ih k hk' hpk' hmin'
      have hne : jsFindIndex p xs ≠ -1 := by rw [hxs]; omega
      simp only [jsFindIndex, hx, Bool.false_eq_true, if_false, hxs, hne,
        ite_false]
      omega

theorem jsCeilDiv_nonneg (n size : Nat) : 0 ≤ jsCeilDiv n size :=
  Int.ofNat_nonneg _

theorem jsCeilDiv_mono {m n : Nat} (size : Nat) (h : m ≤ n) :
    jsCeilDiv m size ≤ jsCeilDiv n size := by
  unfold jsCeilDiv
  exact_mod_cast Nat.div_le_div_right (by omega)

/-- C4: when every component of the filter state is empty/default
(empty search, empty skills, empty industries/sectors, openToWork
false), the filter predicate includes every record and the filtered
collections equal the unfiltered ones. -/
theorem empty_filters_include_all (fp : PeopleFilters) (fq : ProjectFilters)
    (hps : fp.search = "") (hpk : fp.skills = []) (hpi : fp.industries = [])
    (hpw : fp.openToWork = false)
    (hqs : fq.search = "") (hqk : fq.skills = []) (hqc : fq.sectors = []) :
    (∀ p : Profile, profileIncluded fp p = true) ∧
    (∀ ps : List Profile, filteredProfiles fp ps = ps) ∧
    (∀ q : Project, projectIncluded fq q = true) ∧
    (∀ qs : List Project, filteredProjects fq qs = qs) := by
  have hp : ∀ p : Profile, profileIncluded fp p = true := by
    intro p
    simp [profileIncluded, searchPassProfile, skillsPassProfile,
      industriesPassProfile, openToWorkPassProfile, hps, hpk, hpi, hpw]
  have hq : ∀ q : Project, projectIncluded fq q = true := by
    intro q
    simp [projectIncluded, searchPassProject, skillsPassProject,
      sectorsPassProject, hqs, hqk, hqc]
  refine ⟨hp, fun ps => ?_, hq, fun qs => ?_⟩
  · exact List.filter_eq_self.mpr fun a _ => hp a
  · exact List.filter_eq_self.mpr fun a _ => hq a

/-- Witness for `empty_filters_include_all` at the default filter
states and concrete collections. -/
theorem empty_filters_include_all_witness :
    filteredProfiles emptyPeopleFilters [profAda, profBo] = [profAda, profBo] ∧
    filteredProjects emptyProjectFilters [projGo, projPython] =
      [projGo, projPython] := by
  have h := empty_filters_include_all emptyPeopleFilters emptyProjectFilters
    rfl rfl rfl rfl rfl rfl rfl
  exact ⟨h.2.1 [profAda, profBo], h.2.2.2 [projGo, projPython]⟩

/-- C6: when no project search term is active (search trims to empty)
and no skills or sectors facet is selected, the derived cross-filter
returns the person's embedded projects list unmodified. -/
theorem derived_filter_default (f : ProjectFilters) (ps : List Project)
    (hs : jsTrim f.search = "") (hk : f.skills = []) (hc : f.sectors = []) :
    filteredPersonProjects f (some ps) = ps := by
  simp [filteredPersonProjects, hs, hk, hc]

/-- Witness for `derived_filter_default`: a person with 5 embedded
projects and no active project filter shows all 5 unmodified. -/
theorem derived_filter_default_witness :
    filteredPersonProjects emptyProjectFilters (some fiveProjects) =
      fiveProjects :=
  derived_filter_default emptyProjectFilters fiveProjects (by decide) rfl rfl

/-- C8: when the requested detail slug does not resolve (the
`getBySlug` response is unsuccessful or the fetch throws), the state
stays in detail layout with the error set, and the component renders
the error condition instead of reverting to grid or list. -/
theorem detail_not_found_terminal (slug : String) (s : ComponentState) :
    ((fetchPersonAndListComplete slug none none (routeDetailEnter s)).layoutView
        = .detail ∧
      renderOutcome true (fetchPersonAndListComplete slug none none
        (routeDetailEnter s)) = .errorScreen "Person not found") ∧
    ((fetchProjectAndListComplete slug none none (routeDetailEnter s)).layoutView
        = .detail ∧
      renderOutcome true (fetchProjectAndListComplete slug none none
        (routeDetailEnter s)) = .errorScreen "Project not found") :=
  ⟨⟨rfl, rfl⟩, ⟨rfl, rfl⟩⟩

/-- C9: switching tabs resets `currentIndex` to the unset value `-1`
and the grid page to `0`, and leaves both entities' filter state
untouched. -/
theorem tab_switch_resets (tab : ViewMode) (s : ComponentState) :
    (handleTabSwitch tab s).1.currentIndex = -1 ∧
    (handleTabSwitch tab s).1.gridPage = 0 ∧
    (handleTabSwitch tab s).1.peopleFilters = s.peopleFilters ∧
    (handleTabSwitch tab s).1.projectFilters = s.projectFilters :=
  ⟨rfl, rfl, rfl, rfl⟩

/-- C10: every client-side filtered collection is an order-preserving
sub-sequence (sublist) of its source collection — no element is
reordered, duplicated or synthesized. -/
theorem filtered_collections_sublists (fp : PeopleFilters)
    (fq : ProjectFilters) (ps : List Profile) (qs : List Project)
    (pp : List Project) :
    (filteredProfiles fp ps).Sublist ps ∧
    (filteredProjects fq qs).Sublist qs ∧
    (filteredPersonProjects fq (some pp)).Sublist pp := by
  refine ⟨List.filter_sublist ps, List.filter_sublist qs, ?_⟩
  simp only [filteredPersonProjects]
  split
  · exact List.Sublist.refl pp
  · exact List.filter_sublist pp

/-- C3 counterexample: with a stale retained index (`currentIndex = 2`)
over a collection of length `N = 1`, the claim requires both guards to
be false, but `canGoPrevious` (which only tests `currentIndex > 0`) is
true. -/
theorem navigator_guards_counterexample :
    currentLength shrunkCollectionState = 1 ∧
    canGoPrevious shrunkCollectionState = true := by
  exact ⟨rfl, rfl⟩

/-- C3 (amended): `canGoNext` holds iff `0 ≤ i < N - 1` and
`canGoPrevious` holds iff `i > 0`; both are false at `i = -1`, and
`canGoNext` is false whenever `N ≤ 1` (`canGoPrevious` ignores `N`, so
it can be true with `N ≤ 1` when a stale index `i > 0` is retained). -/
theorem navigator_guards (s : ComponentState) :
    (canGoNext s = true ↔
      0 ≤ s.currentIndex ∧ s.currentIndex < (currentLength s : Int) - 1) ∧
    (canGoPrevious s = true ↔ 0 < s.currentIndex) ∧
    (s.currentIndex = -1 → canGoPrevious s = false ∧ canGoNext s = false) ∧
    (currentLength s ≤ 1 → canGoNext s = false) := by
  refine ⟨?_, ?_, ?_, ?_⟩
  · simp [canGoNext]
  · simp [canGoPrevious]
  · intro h
    constructor
    · simp [canGoPrevious, h]
    · simp [canGoNext, h]
  · intro h
    have h1 : (currentLength s : Int) - 1 ≤ 0 := by
      have := Int.ofNat_le.mpr h
      omega
    simp only [canGoNext, Bool.and_eq_true, decide_eq_true_iff]
    rw [Bool.and_eq_false_iff]
    by_cases h0 : 0 ≤ s.currentIndex
    · right
      simp only [decide_eq_false_iff_not]
      omega
    · left
      simp only [decide_eq_false_iff_not]
      omega

/-- Witness for `navigator_guards`: at length 1 with stale index 2,
`canGoNext` is false. -/
theorem navigator_guards_witness :
    canGoNext shrunkCollectionState = false :=
  (navigator_guards shrunkCollectionState).2.2.2 (by decide)

/-- C5 counterexample: a profile with no skills field is included under
the empty skills facet but excluded once the skill "Go" is added to the
(previously empty) facet — adding a skill shrank the included set. -/
theorem skills_monotonicity_counterexample :
    profileIncluded emptyPeopleFilters profCam = true ∧
    profileIncluded goOnlyPeopleFilters profCam = false := by
  exact ⟨rfl, rfl⟩

/-- C5 (amended): adding a skill to an already nonempty selected-skills
facet can only expand the included set (monotonicity holds provided the
facet was already active; selecting a first skill activates the facet
and can exclude records). -/
theorem skills_monotonicity_nonempty (f : PeopleFilters) (sk : String)
    (p : Profile) (hne : f.skills ≠ [])
    (h : profileIncluded f p = true) :
    profileIncluded { f with skills := f.skills ++ [sk] } p = true := by
  simp only [profileIncluded, Bool.and_eq_true] at h ⊢
  obtain ⟨⟨⟨hsearch, hskills⟩, hind⟩, hotw⟩ := h
  have hlen : 0 < f.skills.length := List.length_pos.mpr hne
  refine ⟨⟨⟨?_, ?_⟩, ?_⟩, ?_⟩
  · exact hsearch
  · simp only [skillsPassProfile, hlen, if_pos] at hskills
    have hlen2 : 0 < (f.skills ++ [sk]).length := by
      simp [List.length_append]
    simp only [skillsPassProfile]
    rw [if_pos hlen2]
    rw [List.any_eq_true] at hskills ⊢
    obtain ⟨x, hx, hpx⟩ := hskills
    exact ⟨x, List.mem_append_left _ hx, hpx⟩
  · exact hind
  · exact hotw

/-- Witness for `skills_monotonicity_nonempty`: a "Go" profile included
under the facet `{"Go"}` stays included under `{"Go", "Rust"}`. -/
theorem skills_monotonicity_nonempty_witness :
    profileIncluded
      { goOnlyPeopleFilters with
          skills := goOnlyPeopleFilters.skills ++ ["Rust"] } profGoDev = true :=
  skills_monotonicity_nonempty goOnlyPeopleFilters "Rust" profGoDev
    (by decide) (by decide)

/-- C7 counterexample: in `list` layout on page 1 with current index 1,
pressing ArrowLeft does not page the pagination controller (the claim
requires `setPage 0`) — it steps the sequential navigator to the
previous item's detail route. -/
theorem keyboard_arrow_counterexample :
    listLayoutState.layoutView = LayoutView.list ∧
    listLayoutState.gridPage = 1 ∧
    handleKeyDown Key.arrowLeft listLayoutState =
      KeyEffect.navigateTo "/people/ada-lovelace" ∧
    handleKeyDown Key.arrowLeft listLayoutState ≠ KeyEffect.setPage 0 := by
  refine ⟨rfl, rfl, by decide, by decide⟩

/-- C7 (amended): arrow keys page the pagination controller only in
`grid` layout; in `list` and `detail` layout they invoke the sequential
navigator's previous/next handlers; the navigator is never invoked in
`grid` layout. -/
theorem keyboard_arrow_dispatch (s : ComponentState) (k : Key) :
    (s.layoutView = .grid →
      handleKeyDown .arrowLeft s =
        (if 0 < s.gridPage then .setPage (s.gridPage - 1) else .noop) ∧
      handleKeyDown .arrowRight s =
        (if s.gridPage < kbGridMaxPage s then .setPage (s.gridPage + 1)
         else .noop) ∧
      (∀ path, handleKeyDown k s ≠ .navigateTo path)) ∧
    (s.layoutView ≠ .grid →
      handleKeyDown .arrowLeft s = handlePreviousEffect s ∧
      handleKeyDown .arrowRight s = handleNextEffect s) := by
  constructor
  · intro hg
    refine ⟨by simp [handleKeyDown, hg], by simp [handleKeyDown, hg], ?_⟩
    intro path
    cases k with
    | arrowLeft =>
      simp only [handleKeyDown, hg, if_pos]
      split <;> simp
    | arrowRight =>
      simp only [handleKeyDown, hg, if_pos]
      split <;> simp
    | other => simp [handleKeyDown]
  · intro hg
    constructor <;> simp [handleKeyDown, hg]

/-- Witness for `keyboard_arrow_dispatch`: in the initial grid state,
ArrowLeft at page 0 is a no-op (and in particular not a navigation). -/
theorem keyboard_arrow_dispatch_witness :
    handleKeyDown Key.arrowLeft baseState = KeyEffect.noop :=
  (((keyboard_arrow_dispatch baseState Key.arrowLeft).1 rfl).1).trans
    (by decide)

/-- C1: when the full collection for the active entity mode is
refreshed in detail mode, `currentIndex` is left at its previous value
whenever the displayed entity's slug is absent from the refreshed
collection, and is set to the (first) index of that slug when it is
present. -/
theorem stale_index_retention (s : ComponentState) (per : Profile)
    (proj : Project) :
    (s.layoutView = .detail → s.viewMode = .people → s.person = some per →
      ((∀ q ∈ s.allProfiles, q.slug ≠ per.slug) →
        (updateCurrentIndexEffect true s).currentIndex = s.currentIndex) ∧
      (∀ (k : Nat) (hk : k < s.allProfiles.length),
        (s.allProfiles.get ⟨k, hk⟩).slug = per.slug →
        (∀ (j : Nat) (hj : j < k),
          (s.allProfiles.get ⟨j, Nat.lt_trans hj hk⟩).slug ≠ per.slug) →
        (updateCurrentIndexEffect true s).currentIndex = k)) ∧
    (s.layoutView = .detail → s.viewMode = .projects → s.project = some proj →
      ((∀ q ∈ s.allProjects, q.slug ≠ proj.slug) →
        (updateCurrentIndexEffect true s).currentIndex = s.currentIndex) ∧
      (∀ (k : Nat) (hk : k < s.allProjects.length),
        (s.allProjects.get ⟨k, hk⟩).slug = proj.slug →
        (∀ (j : Nat) (hj : j < k),
          (s.allProjects.get ⟨j, Nat.lt_trans hj hk⟩).slug ≠ proj.slug) →
        (updateCurrentIndexEffect true s).currentIndex = k)) := by
  obtain ⟨person, project, loading, error, allProfiles, allProjects, ci, vm,
    lv, gp, tp, tj, pf, qf, fv, mm⟩ := s
  constructor
  · intro hl hv hp
    simp only at hl hv hp
    subst hl hv hp
    constructor
    · intro habs
      by_cases hlen : 0 < allProfiles.length
      · have hfi : jsFindIndex (fun p => p.slug == per.slug) allProfiles = -1 :=
          jsFindIndex_of_forall_false _ _ fun x hx => by
            rw [beq_eq_false_iff_ne]
            exact habs x hx
        simp [updateCurrentIndexEffect, hlen, hfi]
      · simp [updateCurrentIndexEffect, hlen]
    · intro k hk hslug hmin
      have hfi : jsFindIndex (fun p => p.slug == per.slug) allProfiles = k :=
        jsFindIndex_first _ _ k hk (by simp only [beq_iff_eq]; exact hslug)
          fun j hj => by
          rw [beq_eq_false_iff_ne]
          exact hmin j hj
      have hlen : 0 < allProfiles.length :=
        Nat.lt_of_le_of_lt (Nat.zero_le k) hk
      simp [updateCurrentIndexEffect, hlen, hfi]
  · intro hl hv hp
    simp only at hl hv hp
    subst hl hv hp
    constructor
    · intro habs
      by_cases hlen : 0 < allProjects.length
      · have hfi : jsFindIndex (fun p => p.slug == proj.slug) allProjects = -1 :=
          jsFindIndex_of_forall_false _ _ fun x hx => by
            rw [beq_eq_false_iff_ne]
            exact habs x hx
        simp [updateCurrentIndexEffect, hlen, hfi]
      · simp [updateCurrentIndexEffect, hlen]
    · intro k hk hslug hmin
      have hfi : jsFindIndex (fun p => p.slug == proj.slug) allProjects = k :=
        jsFindIndex_first _ _ k hk (by simp only [beq_iff_eq]; exact hslug)
          fun j hj => by
          rw [beq_eq_false_iff_ne]
          exact hmin j hj
      have hlen : 0 < allProjects.length :=
        Nat.lt_of_le_of_lt (Nat.zero_le k) hk
      simp [updateCurrentIndexEffect, hlen, hfi]

/-- Witness for `stale_index_retention` at the spec's scenario: person
"x" at index 2 while the refreshed 4-element collection no longer
contains "x" — the index stays 2. -/
theorem stale_index_retention_witness :
    (updateCurrentIndexEffect true staleIndexState).currentIndex = 2 := by
  have h :=
    ((stale_index_retention staleIndexState profX projGo).1 rfl rfl rfl).1
  exact (h (by decide)).trans rfl

/-- C2: the grid pagination controller's maximum navigable page is
`ceil(total / 8) - 1` floored at 0: the next-page control is a no-op at
or beyond that maximum (and so is the keyboard paging step, whose
client-side filtered collection never exceeds the server total), steps
by exactly one below it, never exceeds it, and at `total = 0` the
maximum is 0 with both page controls inert. -/
theorem page_clamp (total filteredLen : Nat) (g : Int)
    (hg : 0 ≤ g) (hfl : filteredLen ≤ total) :
    (maxNavigablePage total ≤ g → gridNextPageClick total g = g) ∧
    (g < maxNavigablePage total → gridNextPageClick total g = g + 1) ∧
    gridNextPageClick total g ≤ max g (maxNavigablePage total) ∧
    (maxNavigablePage total ≤ g → kbArrowRightGridStep filteredLen g = g) ∧
    (total = 0 → maxNavigablePage total = 0 ∧ gridNextPageClick total g = g ∧
      gridPrevPageClick total g = g ∧
      kbArrowRightGridStep filteredLen g = g) := by
  have hc0 : 0 ≤ jsCeilDiv total 8 := jsCeilDiv_nonneg total 8
  have hd : jsCeilDiv filteredLen 8 ≤ jsCeilDiv total 8 := jsCeilDiv_mono 8 hfl
  refine ⟨?_, ?_, ?_, ?_, ?_⟩
  · intro h
    unfold maxNavigablePage at h
    unfold gridNextPageClick
    split_ifs <;> omega
  · intro h
    unfold maxNavigablePage at h
    unfold gridNextPageClick
    split_ifs <;> omega
  · unfold maxNavigablePage gridNextPageClick
    split_ifs <;> omega
  · intro h
    unfold maxNavigablePage at h
    unfold kbArrowRightGridStep
    split_ifs <;> omega
  · intro h
    subst h
    have h0 : jsCeilDiv 0 8 = 0 := rfl
    have hfl0 : filteredLen = 0 := Nat.le_zero.mp hfl
    subst hfl0
    refine ⟨by unfold maxNavigablePage; omega, ?_, ?_, ?_⟩
    · unfold gridNextPageClick
      split_ifs <;> omega
    · unfold gridPrevPageClick
      split_ifs <;> omega
    · unfold kbArrowRightGridStep
      split_ifs <;> omega

/-- Witness for `page_clamp`: total 17 has maximum page 2; a forward
action at page 2 is rejected by the button and by the keyboard step. -/
theorem page_clamp_witness :
    gridNextPageClick 17 2 = 2 ∧ kbArrowRightGridStep 8 2 = 2 := by
  have h := page_clamp 17 8 2 (by decide) (by decide)
  exact ⟨h.1 (by decide), h.2.2.2.1 (by decide)⟩
